import Mathlib

/-!
Verification of the grade-management program (NotenOderSo.py).

Shallow embedding conventions:
- Decimal grade values are modelled as exact rationals.
- Python dicts (insertion-ordered, string-keyed) are modelled as
  association lists; `lookupA` returns the first binding, a fresh key is
  appended at the end, and in-place value mutation maps over the bindings.
- The builtin `round(x, 2)` is modelled by `round2`: round to the nearest
  multiple of 1/100, ties to even (Python banker rounding), on exact values.
- UI handlers become pure state transformers that also report the list of
  states passed to `save_data` and whether a warning/error was emitted.
-/

namespace Noten

/-- Association-list lookup: first binding of a key, as in a Python dict. -/
def lookupA {α : Type} (k : String) : List (String × α) → Option α
  | [] => none
  | p :: t => if p.1 = k then some p.2 else lookupA k t

/-- Binding a fresh key in a Python dict appends it at the end. -/
def insertA {α : Type} (k : String) (v : α) (m : List (String × α)) :
    List (String × α) :=
  m ++ [(k, v)]

/-- In-place mutation of the value stored under a key. -/
def updateA {α : Type} (k : String) (f : α → α) : List (String × α) → List (String × α)
  | [] => []
  | p :: t => (if p.1 = k then (p.1, f p.2) else p) :: updateA k f t

/-- Python dict assignment d[k] = v: replace in place if present, else append. -/
def dictSet {α : Type} (k : String) (v : α) (m : List (String × α)) :
    List (String × α) :=
  match lookupA k m with
  | none => m ++ [(k, v)]
  | some _ => updateA k (fun _ => v) m

/-- Python del d[k]. -/
def dictDel {α : Type} (k : String) (m : List (String × α)) : List (String × α) :=
  m.filter (fun p => decide (p.1 ≠ k))

/-- Python str.strip(): drop leading and trailing whitespace. -/
def pyStrip (s : String) : String :=
  ⟨((s.data.dropWhile Char.isWhitespace).reverse.dropWhile Char.isWhitespace).reverse⟩

/-- Python str.lower(), on the ASCII range used by the UI. -/
def pyLower (s : String) : String :=
  ⟨s.data.map Char.toLower⟩

/-- Python s.replace(" ", replacement-char) for a one-character pattern. -/
def pyReplaceSpace (s : String) (c : Char) : String :=
  ⟨s.data.map (fun a => if a = ' ' then c else a)⟩

/-- Subject-key normalization used by the CSV import (line 425):
fach.lower().replace(" ", "_"). -/
def subj_key_of (s : String) : String :=
  pyReplaceSpace (pyLower s) '_'

/-- NOTE_TEXT_TO_DECIMAL: the fixed grade scale of the source. -/
def NOTE_TEXT_TO_DECIMAL : List (String × ℚ) :=
  [("1+", 0.7), ("1", 1.0), ("1-", 1.3),
   ("2+", 1.7), ("2", 2.0), ("2-", 2.3),
   ("3+", 2.7), ("3", 3.0), ("3-", 3.3),
   ("4+", 3.7), ("4", 4.0), ("4-", 4.3),
   ("5+", 4.7), ("5", 5.0), ("5-", 5.3),
   ("6", 6.0)]

/-- Reverse lookup, line 307 of the source:
the first tag whose decimal equals the given value exactly. -/
def noteTextOf (d : ℚ) : Option String :=
  ((NOTE_TEXT_TO_DECIMAL.filter (fun p => decide (p.2 = d))).map Prod.fst).head?

/-- Model of the Python builtin round(x, 2): nearest multiple of 1/100,
ties to even. -/
def round2 (x : ℚ) : ℚ :=
  let y : ℚ := 100 * x
  let n : ℤ := y.floor
  let r : ℤ :=
    if 1 < 2 * (y - n) then n + 1
    else if 2 * (y - n) < 1 then n
    else if n % 2 = 0 then n else n + 1
  (r : ℚ) / 100

/-- A subject: display name and ordered grade sequence. -/
structure Subject where
  name : String
  grades : List ℚ
deriving DecidableEq

/-- A student: display name, class label, subject mapping. -/
structure Student where
  name : String
  klasse : String
  subjects : List (String × Subject)
deriving DecidableEq

/-- The record set persisted in noten_db.json, keyed by student id. -/
abbrev RecordSet : Type := List (String × Student)

/-- calculate_subject_average, lines 64-67. -/
def calculate_subject_average (grades : List ℚ) : Option ℚ :=
  if grades = [] then none
  else some (round2 (grades.sum / (grades.length : ℚ)))

/-- calculate_student_average, lines 69-77. -/
def calculate_student_average (subjects : List (String × Subject)) : Option ℚ :=
  let subject_avgs :=
    subjects.filterMap (fun p => calculate_subject_average p.2.grades)
  if subject_avgs = [] then none
  else some (round2 (subject_avgs.sum / (subject_avgs.length : ℚ)))

/-- Class average, the statistics-page loop of lines 344-362: mean of the
defined student averages, rounded to 2 decimals; no value when none is defined. -/
def class_average (students : List Student) : Option ℚ :=
  let student_avgs :=
    students.filterMap (fun s => calculate_student_average s.subjects)
  if student_avgs = [] then none
  else some (round2 (student_avgs.sum / (student_avgs.length : ℚ)))

/-- Abstraction of the on-disk state of noten_db.json seen by load_data. -/
inductive FileState where
  | missing : FileState
  | corrupt : FileState
  | valid : List (String × Student) → FileState

/-- load_data, lines 46-54, as a total function of the file state; the Bool
records whether the warning branch ran. The bare except clause means no
exception ever escapes. -/
def load_data : FileState → (List (String × Student)) × Bool
  | FileState.missing => ([], false)
  | FileState.corrupt => ([], true)
  | FileState.valid d => (d, false)

/-- The id string built at line 205 for a given record-set size and
timestamp string: f-string schueler_(len+1)_(timestamp). -/
def gen_student_id (n : Nat) (ts : String) : String :=
  "schueler_" ++ toString (n + 1) ++ "_" ++ ts

/-- new_id at line 205: count component is len(data)+1. -/
def new_student_id (data : RecordSet) (ts : String) : String :=
  gen_student_id data.length ts

/-- The new-student form submit handler, lines 201-214. Returns the new
record set, the list of record-set states passed to save_data, and whether
the empty-name error branch ran. -/
def new_student_submit (data : RecordSet) (name klasse ts : String) :
    RecordSet × List RecordSet × Bool :=
  if pyStrip name = "" then (data, [], true)
  else
    let d := dictSet (new_student_id data ts)
      ⟨pyStrip name, pyStrip klasse, []⟩ data
    (d, [d], false)

/-- The rename/edit handler, lines 228-236: same validation, then the
selected student record is mutated in place and saved. -/
def rename_student_submit (data : RecordSet) (sid name klasse : String) :
    RecordSet × List RecordSet × Bool :=
  if pyStrip name = "" then (data, [], true)
  else
    let d := updateA sid
      (fun s => { s with name := pyStrip name, klasse := pyStrip klasse }) data
    (d, [d], false)

/-- The confirmed student deletion, lines 246-251. -/
def delete_student (data : RecordSet) (sid : String) : RecordSet :=
  dictDel sid data

/-- The add-subject handler, lines 261-270, acting on one student's subject
mapping. Returns (mapping, warned, saved). The button body only runs when
new_subject.strip() is truthy; the key is strip().lower().replace(" ","_"). -/
def add_subject_submit (subjects : List (String × Subject)) (new_subject : String) :
    (List (String × Subject)) × Bool × Bool :=
  if pyStrip new_subject = "" then (subjects, false, false)
  else
    let key := subj_key_of (pyStrip new_subject)
    match lookupA key subjects with
    | none => (insertA key ⟨pyStrip new_subject, []⟩ subjects, false, true)
    | some _ => (subjects, true, false)

/-- One CSV row as read by the import loop (the decimal column is unused). -/
structure Row where
  sid : String
  name : String
  klasse : String
  fach : String
  noteText : String
deriving DecidableEq

/-- Import loop, step 1 (lines 418-423): create the student if unseen. -/
def csvImportStudent (data : RecordSet) (r : Row) : RecordSet :=
  match lookupA r.sid data with
  | none => insertA r.sid ⟨r.name, r.klasse, []⟩ data
  | some _ => data

/-- Import loop, step 2 (lines 424-427): create the subject if its
normalized key is unseen under the (now present) student. -/
def csvImportSubject (data : RecordSet) (r : Row) : RecordSet :=
  match lookupA r.sid data with
  | none => data
  | some s =>
    match lookupA (subj_key_of r.fach) s.subjects with
    | none =>
      updateA r.sid
        (fun st => { st with
          subjects := insertA (subj_key_of r.fach) ⟨r.fach, []⟩ st.subjects })
        data
    | some _ => data

/-- Import loop, one row (lines 416-432): steps 1-2, then the grade tag is
looked up in the scale; a hit appends the decimal, a KeyError is caught and
only warns. Returns (new data, warned). -/
def csvImportRow (data : RecordSet) (r : Row) : RecordSet × Bool :=
  let data2 := csvImportSubject (csvImportStudent data r) r
  match lookupA r.noteText NOTE_TEXT_TO_DECIMAL with
  | some d =>
    (updateA r.sid
      (fun st => { st with
        subjects := updateA (subj_key_of r.fach)
          (fun sb => { sb with grades := sb.grades ++ [d] }) st.subjects })
      data2, false)
  | none => (data2, true)

/-- The whole row loop: fold csvImportRow, counting warnings. -/
def csvRunImport (data : RecordSet) : List Row → RecordSet × Nat
  | [] => (data, 0)
  | r :: rs =>
    let p := csvImportRow data r
    let q := csvRunImport p.1 rs
    (q.1, (if p.2 then 1 else 0) + q.2)

/-- The import button handler, lines 415-435: run the loop, then call
save_data exactly once on the final state. Returns (final data, warning
count, save log). -/
def csvImportHandler (data : RecordSet) (rows : List Row) :
    RecordSet × Nat × List RecordSet :=
  let p := csvRunImport data rows
  (p.1, p.2, [p.1])

/-- Total number of grades stored under one student. -/
def subject_grade_count (s : Student) : Nat :=
  (s.subjects.map (fun p => p.2.grades.length)).sum

/-- Total number of grades stored in the record set. -/
def total_grades (d : RecordSet) : Nat :=
  (d.map (fun p => subject_grade_count p.2)).sum

/-- A grade sequence extends another when the old one is an initial
segment: grades are only ever appended. -/
def gradesExtend (g g₂ : List ℚ) : Prop :=
  ∃ t, g₂ = g ++ t

/-- A subject extends another: same display name, grades only appended. -/
def subjectExtends (sb sb₂ : Subject) : Prop :=
  sb₂.name = sb.name ∧ gradesExtend sb.grades sb₂.grades

/-- A student extends another: name and class label unchanged, every
previously stored subject still found under its key and extended. -/
def studentExtends (s s₂ : Student) : Prop :=
  s₂.name = s.name ∧ s₂.klasse = s.klasse ∧
  ∀ k sb, lookupA k s.subjects = some sb →
    ∃ sb₂, lookupA k s₂.subjects = some sb₂ ∧ subjectExtends sb sb₂

/-- A record set extends another: every previously stored student is still
found under its id and extended. -/
def recordExtends (d d₂ : RecordSet) : Prop :=
  ∀ sid s, lookupA sid d = some s →
    ∃ s₂, lookupA sid d₂ = some s₂ ∧ studentExtends s s₂

/-! ### Association-list lemmas -/

theorem lookupA_append_of_some {α : Type} {k : String} {m l : List (String × α)}
    {v : α} (h : lookupA k m = some v) : lookupA k (m ++ l) = some v := by
  induction m with
  | nil => simp [lookupA] at h
  | cons p t ih =>
    rw [List.cons_append]
    rw [lookupA] at h ⊢
    by_cases hp : p.1 = k
    · simpa [hp] using h
    · rw [if_neg hp] at h ⊢
      exact ih h

theorem lookupA_insertA_of_some {α : Type} {k k₂ : String} {m : List (String × α)}
    {v w : α} (h : lookupA k m = some v) :
    lookupA k (insertA k₂ w m) = some v :=
  lookupA_append_of_some h

theorem lookupA_updateA_self {α : Type} (k : String) (f : α → α)
    (m : List (String × α)) :
    lookupA k (updateA k f m) = (lookupA k m).map f := by
  induction m with
  | nil => rfl
  | cons p t ih =>
    rw [updateA, lookupA]
    by_cases hp : p.1 = k
    · simp [hp, lookupA]
    · simp only [if_neg hp, lookupA, if_neg hp, ih]

theorem lookupA_updateA_ne {α : Type} {k k₂ : String} (f : α → α)
    (m : List (String × α)) (h : k₂ ≠ k) :
    lookupA k (updateA k₂ f m) = lookupA k m := by
  induction m with
  | nil => rfl
  | cons p t ih =>
    by_cases hp : p.1 = k₂
    · have hnk : p.1 ≠ k := by rw [hp]; exact h
      simp only [updateA, if_pos hp, lookupA, if_neg hnk]
      exact ih
    · simp only [updateA, if_neg hp, lookupA]
      by_cases hq : p.1 = k
      · simp [hq]
      · simp [hq, ih]

theorem lookupA_eq_none_iff {α : Type} {k : String} {m : List (String × α)} :
    lookupA k m = none ↔ ∀ p ∈ m, p.1 ≠ k := by
  induction m with
  | nil => simp [lookupA]
  | cons p t ih =>
    rw [lookupA]
    by_cases hp : p.1 = k
    · simp [hp]
    · simp [hp, ih]

/-! ### Grade-count lemmas -/

theorem total_grades_append (m l : RecordSet) :
    total_grades (m ++ l) = total_grades m + total_grades l := by
  simp [total_grades]

theorem total_grades_updateA (k : String) (f : Student → Student)
    (m : RecordSet) (hf : ∀ s, subject_grade_count (f s) = subject_grade_count s) :
    total_grades (updateA k f m) = total_grades m := by
  induction m with
  | nil => rfl
  | cons p t ih =>
    show total_grades (_ :: _) = _
    by_cases hp : p.1 = k
    · simp only [updateA, if_pos hp, total_grades, List.map_cons, List.sum_cons] at ih ⊢
      rw [hf, ih]
    · simp only [updateA, if_neg hp, total_grades, List.map_cons, List.sum_cons] at ih ⊢
      rw [ih]

theorem subject_grade_count_insert_empty (st : Student) (key nm : String) :
    subject_grade_count { st with subjects := insertA key ⟨nm, []⟩ st.subjects } =
      subject_grade_count st := by
  simp [subject_grade_count, insertA]

/-! ### The extension preorder -/

theorem gradesExtend_refl (g : List ℚ) : gradesExtend g g :=
  ⟨[], (List.append_nil g).symm⟩

theorem gradesExtend_trans {g₁ g₂ g₃ : List ℚ}
    (h₁ : gradesExtend g₁ g₂) (h₂ : gradesExtend g₂ g₃) : gradesExtend g₁ g₃ := by
  obtain ⟨t₁, rfl⟩ := h₁
  obtain ⟨t₂, rfl⟩ := h₂
  exact ⟨t₁ ++ t₂, List.append_assoc g₁ t₁ t₂⟩

theorem subjectExtends_refl (sb : Subject) : subjectExtends sb sb :=
  ⟨rfl, gradesExtend_refl sb.grades⟩

theorem subjectExtends_trans {sb₁ sb₂ sb₃ : Subject}
    (h₁ : subjectExtends sb₁ sb₂) (h₂ : subjectExtends sb₂ sb₃) :
    subjectExtends sb₁ sb₃ :=
  ⟨h₂.1.trans h₁.1, gradesExtend_trans h₁.2 h₂.2⟩

theorem studentExtends_refl (s : Student) : studentExtends s s :=
  ⟨rfl, rfl, fun _k sb h => ⟨sb, h, subjectExtends_refl sb⟩⟩

theorem studentExtends_trans {s₁ s₂ s₃ : Student}
    (h₁ : studentExtends s₁ s₂) (h₂ : studentExtends s₂ s₃) :
    studentExtends s₁ s₃ := by
  refine ⟨h₂.1.trans h₁.1, h₂.2.1.trans h₁.2.1, fun k sb h => ?_⟩
  obtain ⟨sb₂, hl₂, he₂⟩ := h₁.2.2 k sb h
  obtain ⟨sb₃, hl₃, he₃⟩ := h₂.2.2 k sb₂ hl₂
  exact ⟨sb₃, hl₃, subjectExtends_trans he₂ he₃⟩

theorem recordExtends_refl (d : RecordSet) : recordExtends d d :=
  fun _sid s h => ⟨s, h, studentExtends_refl s⟩

theorem recordExtends_trans {d₁ d₂ d₃ : RecordSet}
    (h₁ : recordExtends d₁ d₂) (h₂ : recordExtends d₂ d₃) :
    recordExtends d₁ d₃ := by
  intro sid s h
  obtain ⟨s₂, hl₂, he₂⟩ := h₁ sid s h
  obtain ⟨s₃, hl₃, he₃⟩ := h₂ sid s₂ hl₂
  exact ⟨s₃, hl₃, studentExtends_trans he₂ he₃⟩

theorem recordExtends_insertA (d : RecordSet) (sid : String) (v : Student) :
    recordExtends d (insertA sid v d) :=
  fun _ s h => ⟨s, lookupA_insertA_of_some h, studentExtends_refl s⟩

theorem recordExtends_updateA (d : RecordSet) (sid : String)
    (f : Student → Student) (hf : ∀ s, studentExtends s (f s)) :
    recordExtends d (updateA sid f d) := by
  intro sid₂ s h
  by_cases hs : sid = sid₂
  · subst hs
    refine ⟨f s, ?_, hf s⟩
    rw [lookupA_updateA_self, h]
    rfl
  · exact ⟨s, (lookupA_updateA_ne f d hs).symm ▸ h, studentExtends_refl s⟩

theorem studentExtends_insert_subject (st : Student) (key : String) (sb : Subject) :
    studentExtends st { st with subjects := insertA key sb st.subjects } :=
  ⟨rfl, rfl, fun _ sb₂ h => ⟨sb₂, lookupA_insertA_of_some h, subjectExtends_refl sb₂⟩⟩

theorem studentExtends_update_subject (st : Student) (key : String)
    (g : Subject → Subject) (hg : ∀ sb, subjectExtends sb (g sb)) :
    studentExtends st { st with subjects := updateA key g st.subjects } := by
  refine ⟨rfl, rfl, fun k sb h => ?_⟩
  by_cases hk : key = k
  · subst hk
    refine ⟨g sb, ?_, hg sb⟩
    show lookupA key (updateA key g st.subjects) = _
    rw [lookupA_updateA_self, h]
    rfl
  · exact ⟨sb, (lookupA_updateA_ne g st.subjects hk).symm ▸ h, subjectExtends_refl sb⟩

/-! ### Import-step lemmas -/

theorem csvImportStudent_extends (data : RecordSet) (r : Row) :
    recordExtends data (csvImportStudent data r) := by
  rw [csvImportStudent]
  cases lookupA r.sid data with
  | none => exact recordExtends_insertA data r.sid _
  | some _ => exact recordExtends_refl data

theorem csvImportSubject_extends (data : RecordSet) (r : Row) :
    recordExtends data (csvImportSubject data r) := by
  rw [csvImportSubject]
  cases lookupA r.sid data with
  | none => exact recordExtends_refl data
  | some s =>
    dsimp only
    cases lookupA (subj_key_of r.fach) s.subjects with
    | none =>
      exact recordExtends_updateA data r.sid _
        (fun st => studentExtends_insert_subject st _ _)
    | some _ => exact recordExtends_refl data

theorem csvImportRow_extends (data : RecordSet) (r : Row) :
    recordExtends data (csvImportRow data r).1 := by
  have h₁₂ : recordExtends data (csvImportSubject (csvImportStudent data r) r) :=
    recordExtends_trans (csvImportStudent_extends data r)
      (csvImportSubject_extends (csvImportStudent data r) r)
  rw [csvImportRow]
  cases lookupA r.noteText NOTE_TEXT_TO_DECIMAL with
  | none => exact h₁₂
  | some d =>
    refine recordExtends_trans h₁₂ (recordExtends_updateA _ r.sid _ (fun st => ?_))
    exact studentExtends_update_subject st _ _
      (fun sb => ⟨rfl, ⟨[d], rfl⟩⟩)

theorem csvRunImport_extends (rows : List Row) (data : RecordSet) :
    recordExtends data (csvRunImport data rows).1 := by
  induction rows generalizing data with
  | nil => exact recordExtends_refl data
  | cons r rs ih =>
    rw [csvRunImport]
    exact recordExtends_trans (csvImportRow_extends data r) (ih (csvImportRow data r).1)

theorem total_grades_csvImportStudent (data : RecordSet) (r : Row) :
    total_grades (csvImportStudent data r) = total_grades data := by
  rw [csvImportStudent]
  cases lookupA r.sid data with
  | none =>
    show total_grades (data ++ [_]) = _
    rw [total_grades_append]
    simp [total_grades, subject_grade_count]
  | some _ => rfl

theorem total_grades_csvImportSubject (data : RecordSet) (r : Row) :
    total_grades (csvImportSubject data r) = total_grades data := by
  rw [csvImportSubject]
  cases lookupA r.sid data with
  | none => rfl
  | some s =>
    dsimp only
    cases lookupA (subj_key_of r.fach) s.subjects with
    | none =>
      exact total_grades_updateA _ _ _
        (fun st => subject_grade_count_insert_empty st _ _)
    | some _ => rfl

/-- Helper: calculate_subject_average yields no value exactly on the empty
grade sequence. -/
theorem calculate_subject_average_eq_none (grades : List ℚ) :
    calculate_subject_average grades = none ↔ grades = [] := by
  rw [calculate_subject_average]
  by_cases h : grades = [] <;> simp [h]

/-- Helper: the inner filterMap of calculate_student_average is empty
exactly when every subject has an empty grade sequence. -/
theorem student_avgs_eq_nil_iff (subjects : List (String × Subject)) :
    subjects.filterMap (fun p => calculate_subject_average p.2.grades) = [] ↔
      ∀ p ∈ subjects, p.2.grades = [] := by
  rw [List.filterMap_eq_nil_iff]
  simp only [calculate_subject_average_eq_none]

/-! ### The claims -/

/-- Claim C1: calculate_student_average does two-level averaging: it is
none exactly when every subject has an empty grade sequence, a subject
with no grades is ignored, and otherwise it returns the 2-decimal rounding
of the mean of the per-subject averages. On subjects A = [1.0, 2.0] and
B = [] it equals calculate_subject_average [1.0, 2.0] = 1.5, and on
A = [1.0, 1.0], B = [6.0] it yields 3.5, which differs from the rounded
pooled mean 8/3 of the raw grades. -/
theorem claim_C1 :
    (∀ subjects : List (String × Subject),
      calculate_student_average subjects = none ↔
        ∀ p ∈ subjects, p.2.grades = []) ∧
    (∀ (k nm : String) (subjects : List (String × Subject)),
      calculate_student_average ((k, ⟨nm, []⟩) :: subjects) =
        calculate_student_average subjects) ∧
    (∀ subjects : List (String × Subject),
      subjects.filterMap (fun p => calculate_subject_average p.2.grades) ≠ [] →
      calculate_student_average subjects = some (round2
        ((subjects.filterMap (fun p => calculate_subject_average p.2.grades)).sum /
          ((subjects.filterMap (fun p => calculate_subject_average p.2.grades)).length : ℚ)))) ∧
    (calculate_student_average [("a", ⟨"A", [1, 2]⟩), ("b", ⟨"B", []⟩)] = some (3/2) ∧
      calculate_subject_average [1, 2] = some (3/2)) ∧
    (calculate_student_average [("a", ⟨"A", [1, 1]⟩), ("b", ⟨"B", [6]⟩)] = some (7/2) ∧
      round2 ((([1, 1, 6] : List ℚ).sum) / ((([1, 1, 6] : List ℚ).length : Nat) : ℚ)) = 267/100 ∧
      (7/2 : ℚ) ≠ 267/100) := by
  refine ⟨?_, ?_, ?_, ?_, ?_⟩
  · intro subjects
    rw [← student_avgs_eq_nil_iff]
    simp only [calculate_student_average]
    by_cases h : subjects.filterMap (fun p => calculate_subject_average p.2.grades) = []
    · simp [h]
    · simp [h]
  · intro k nm subjects
    simp only [calculate_student_average]
    rw [List.filterMap_cons_none]
    rfl
  · intro subjects h
    simp only [calculate_student_average]
    rw [if_neg h]
  · exact ⟨by with_unfolding_all decide, by with_unfolding_all decide⟩
  · exact ⟨by with_unfolding_all decide, by with_unfolding_all decide,
      by with_unfolding_all decide⟩

/-- Witness for C1: the general two-level formula applied to a concrete
single-subject mapping. -/
theorem claim_C1_witness :
    calculate_student_average [("m", ⟨"M", [2]⟩)] = some (round2
      (([("m", (⟨"M", [2]⟩ : Subject))].filterMap
          (fun p => calculate_subject_average p.2.grades)).sum /
        (([("m", (⟨"M", [2]⟩ : Subject))].filterMap
          (fun p => calculate_subject_average p.2.grades)).length : ℚ))) :=
  claim_C1.2.2.1 [("m", ⟨"M", [2]⟩)] (by decide)

/-- Claim C2: the grade scale maps exactly 16 tags to pairwise distinct
decimals, all in the interval from 0.7 to 6.0; forward lookup then reverse
lookup returns the original tag, and each decimal of the value set matches
exactly one entry of the scale. -/
theorem claim_C2 :
    NOTE_TEXT_TO_DECIMAL.length = 16 ∧
    (NOTE_TEXT_TO_DECIMAL.map Prod.snd).Nodup ∧
    (∀ p ∈ NOTE_TEXT_TO_DECIMAL, 7/10 ≤ p.2 ∧ p.2 ≤ 6) ∧
    (∀ p ∈ NOTE_TEXT_TO_DECIMAL,
      lookupA p.1 NOTE_TEXT_TO_DECIMAL = some p.2 ∧ noteTextOf p.2 = some p.1) ∧
    (∀ p ∈ NOTE_TEXT_TO_DECIMAL,
      (NOTE_TEXT_TO_DECIMAL.filter (fun q => decide (q.2 = p.2))).length = 1) := by
  with_unfolding_all decide

/-- Claim C3: calculate_subject_average is none on the empty sequence,
returns the 2-decimal rounded arithmetic mean on any non-empty sequence,
and maps [1.0, 2.0, 3.0] to 2.0. -/
theorem claim_C3 :
    calculate_subject_average [] = none ∧
    (∀ grades : List ℚ, grades ≠ [] →
      calculate_subject_average grades =
        some (round2 (grades.sum / (grades.length : ℚ)))) ∧
    calculate_subject_average [1, 2, 3] = some 2 := by
  refine ⟨rfl, fun g h => ?_, by with_unfolding_all decide⟩
  rw [calculate_subject_average, if_neg h]

/-- Witness for C3: the mean formula applied to a concrete sequence. -/
theorem claim_C3_witness :
    calculate_subject_average [2] =
      some (round2 ((([2] : List ℚ).sum) / ((([2] : List ℚ).length : Nat) : ℚ))) :=
  claim_C3.2.1 [2] (by decide)

/-- Claim C4: load_data returns the empty record set without warning when
no document exists, and an empty record set plus a warning when the
document fails to parse; being a total function of the file state, it
propagates no exception in either case. -/
theorem claim_C4 :
    load_data FileState.missing = ([], false) ∧
    load_data FileState.corrupt = ([], true) := ⟨rfl, rfl⟩

/-- Claim C5: a CSV row whose grade tag misses the scale sets the warning
flag, leaves the total number of stored grades unchanged, and the loop
still processes the remaining rows; concretely, an invalid row followed by
a valid one ends with that one grade imported and one warning. -/
theorem claim_C5 :
    (∀ (data : RecordSet) (r : Row) (rest : List Row),
      lookupA r.noteText NOTE_TEXT_TO_DECIMAL = none →
      (csvImportRow data r).2 = true ∧
      total_grades (csvImportRow data r).1 = total_grades data ∧
      (csvRunImport data (r :: rest)).1 = (csvRunImport (csvImportRow data r).1 rest).1 ∧
      (csvRunImport data (r :: rest)).2 = 1 + (csvRunImport (csvImportRow data r).1 rest).2) ∧
    total_grades (csvRunImport []
      [⟨"s1", "N", "", "Mathe", "X"⟩, ⟨"s1", "N", "", "Mathe", "2"⟩]).1 = 1 ∧
    (csvRunImport []
      [⟨"s1", "N", "", "Mathe", "X"⟩, ⟨"s1", "N", "", "Mathe", "2"⟩]).2 = 1 := by
  refine ⟨?_, by decide, by decide⟩
  intro data r rest h
  have h2 : csvImportRow data r = (csvImportSubject (csvImportStudent data r) r, true) := by
    rw [csvImportRow, h]
  refine ⟨by rw [h2], ?_, rfl, ?_⟩
  · rw [h2]
    exact (total_grades_csvImportSubject _ r).trans (total_grades_csvImportStudent data r)
  · show (if (csvImportRow data r).2 then 1 else 0) + _ = _
    rw [h2]
    rfl

/-- Witness for C5: the warning flag on a concrete unrecognized tag. -/
theorem claim_C5_witness :
    (csvImportRow [] ⟨"s1", "N", "", "Mathe", "X"⟩).2 = true :=
  (claim_C5.1 [] ⟨"s1", "N", "", "Mathe", "X"⟩ [] (by decide)).1

/-- Claim C6: CSV import only extends the record set: every student
present before the import is still found under its id with name and class
label unchanged, every one of its subjects is still found under its key
with display name unchanged and its old grade sequence an initial segment
of the new one; and save_data is called exactly once, on the final state. -/
theorem claim_C6 :
    ∀ (data : RecordSet) (rows : List Row),
      recordExtends data (csvImportHandler data rows).1 ∧
      (csvImportHandler data rows).2.2 = [(csvImportHandler data rows).1] :=
  fun data rows => ⟨csvRunImport_extends rows data, rfl⟩

/-- Witness for C6: the frame property at a concrete record set and row list. -/
theorem claim_C6_witness :
    recordExtends [("s1", ⟨"A", "7b", [("m", ⟨"M", [1]⟩)]⟩)]
      (csvImportHandler [("s1", ⟨"A", "7b", [("m", ⟨"M", [1]⟩)]⟩)]
        [⟨"s1", "A", "7b", "M", "2"⟩]).1 :=
  (claim_C6 [("s1", ⟨"A", "7b", [("m", ⟨"M", [1]⟩)]⟩)]
    [⟨"s1", "A", "7b", "M", "2"⟩]).1

/-- Counterexample to C7 as stated: create two students in the same
timestamp second, delete the first, and the next generated id
(count = len(data)+1 = 2, same timestamp) equals the id of the student
still present. -/
theorem claim_C7_counterexample :
    new_student_id
      (delete_student
        (new_student_submit (new_student_submit [] "A" "" "T").1 "B" "" "T").1
        "schueler_1_T") "T" = "schueler_2_T" ∧
    lookupA "schueler_2_T"
      (delete_student
        (new_student_submit (new_student_submit [] "A" "" "T").1 "B" "" "T").1
        "schueler_1_T") ≠ none := by
  exact ⟨by decide, by decide⟩

/-- Claim C7 amended: a freshly generated id is new provided no id already
present was generated (at any count) with the same timestamp string; with
a deletion and two creations in the same second the fresh id can collide. -/
theorem claim_C7 :
    ∀ (data : RecordSet) (ts : String),
      (∀ p ∈ data, ∀ n : Nat, p.1 ≠ gen_student_id n ts) →
      lookupA (new_student_id data ts) data = none := by
  intro data ts h
  rw [lookupA_eq_none_iff]
  intro p hp
  exact h p hp data.length

/-- Helper for instantiating the same-timestamp hypothesis: a string
shorter than the fixed id scaffold schueler_..._ cannot be a generated id,
whatever the count and timestamp. -/
theorem ne_gen_student_id_of_length_lt {s : String} (n : Nat) (ts : String)
    (h : s.length < 10) : s ≠ gen_student_id n ts := by
  intro he
  have hlen := congrArg String.length he
  rw [gen_student_id, String.length_append, String.length_append,
    String.length_append] at hlen
  have h9 : ("schueler_" : String).length = 9 := rfl
  have h1 : ("_" : String).length = 1 := rfl
  rw [h9, h1] at hlen
  omega

/-- Witness for C7: a populated record set (two students whose ids x and y
are not generated ids, as imported ids need not be) in which the freshly
generated id schueler_3_T is indeed absent. -/
theorem claim_C7_witness :
    lookupA
      (new_student_id
        ([("x", ⟨"Anna", "7b", []⟩), ("y", ⟨"Ben", "7b", []⟩)] : RecordSet) "T")
      ([("x", ⟨"Anna", "7b", []⟩), ("y", ⟨"Ben", "7b", []⟩)] : RecordSet) = none :=
  claim_C7 ([("x", ⟨"Anna", "7b", []⟩), ("y", ⟨"Ben", "7b", []⟩)] : RecordSet) "T"
    (by
      intro p hp n
      simp only [List.mem_cons, List.not_mem_nil, or_false] at hp
      rcases hp with rfl | rfl
      · exact ne_gen_student_id_of_length_lt n "T" (by decide)
      · exact ne_gen_student_id_of_length_lt n "T" (by decide))

/-- Claim C9: an empty (after stripping) name on create or rename leaves
the record set unchanged, saves nothing, and reports the error. -/
theorem claim_C9 :
    ∀ (data : RecordSet) (name klasse ts sid : String),
      pyStrip name = "" →
      new_student_submit data name klasse ts = (data, [], true) ∧
      rename_student_submit data sid name klasse = (data, [], true) := by
  intro data name klasse ts sid h
  constructor
  · rw [new_student_submit, if_pos h]
  · rw [rename_student_submit, if_pos h]

/-- Witness for C9: a whitespace-only name is rejected with no state change. -/
theorem claim_C9_witness :
    new_student_submit [] " " "x" "T" = ([], [], true) :=
  (claim_C9 [] " " "x" "T" "sid" (by decide)).1

/-- Claim C10: adding a subject whose normalized key is already present
returns the subject mapping unchanged, warns, and saves nothing. -/
theorem claim_C10 :
    ∀ (subjects : List (String × Subject)) (new_subject : String) (sb : Subject),
      pyStrip new_subject ≠ "" →
      lookupA (subj_key_of (pyStrip new_subject)) subjects = some sb →
      add_subject_submit subjects new_subject = (subjects, true, false) := by
  intro subjects ns sb h hl
  simp only [add_subject_submit, if_neg h, hl]

/-- Witness for C10: re-adding Mathe when key mathe exists is a no-op plus
warning. -/
theorem claim_C10_witness :
    add_subject_submit [("mathe", ⟨"Mathe", []⟩)] "Mathe" =
      ([("mathe", ⟨"Mathe", []⟩)], true, false) :=
  claim_C10 [("mathe", ⟨"Mathe", []⟩)] "Mathe" ⟨"Mathe", []⟩ (by decide) (by decide)

/-- Claim C8: the class average ignores students whose own average is
undefined, is none exactly when no student has a defined average, and
otherwise is the 2-decimal rounding of the mean of the defined student
averages. -/
theorem claim_C8 :
    (∀ (s : Student) (students : List Student),
      calculate_student_average s.subjects = none →
      class_average (s :: students) = class_average students) ∧
    (∀ students : List Student,
      class_average students = none ↔
        ∀ s ∈ students, calculate_student_average s.subjects = none) ∧
    (∀ students : List Student,
      students.filterMap (fun s => calculate_student_average s.subjects) ≠ [] →
      class_average students = some (round2
        ((students.filterMap (fun s => calculate_student_average s.subjects)).sum /
          ((students.filterMap (fun s => calculate_student_average s.subjects)).length : ℚ)))) := by
  refine ⟨?_, ?_, ?_⟩
  · intro s students h
    simp only [class_average]
    rw [List.filterMap_cons_none]
    exact h
  · intro students
    simp only [class_average]
    by_cases h : students.filterMap (fun s => calculate_student_average s.subjects) = []
    · rw [List.filterMap_eq_nil_iff] at h
      simp [List.filterMap_eq_nil_iff, h]
    · have h₂ := h
      rw [List.filterMap_eq_nil_iff] at h₂
      simp [List.filterMap_eq_nil_iff, h, h₂]
  · intro students h
    simp only [class_average]
    rw [if_neg h]

/-- Witness for C8: a student without grades contributes nothing to a
concrete class average. -/
theorem claim_C8_witness :
    class_average [⟨"A", "", []⟩] = class_average [] :=
  claim_C8.1 ⟨"A", "", []⟩ [] (by decide)

end Noten
